import Mathlib

/-!
Shallow embedding of the config-manager profile service: the versioned
profile data model, the profile store operations, the diff engine, the
playbook generator, and the four HTTP v2 handlers of
`internal/http/v2/handlers.go` (`getProfiles`, `getProfile`,
`createProfile`, `getPlaybook`).

Handlers are embedded directly from the Go source.  The `db` package and
the playbook generator are not part of the provided sources; those
operations are modelled from the specification and are marked as such in
their doc comments.
-/

namespace ConfigManager

/-- A profile version.  Identity fields (`profileID`, `orgID`, `account`,
`createdAt`) and the caller-overridable toggles (`active`, `insights`,
`remediations`, `compliance`) as used by `internal/http/v2/handlers.go`. -/
structure Profile where
  profileID : String
  orgID : String
  account : String
  createdAt : Nat
  active : Bool
  insights : Bool
  remediations : Bool
  compliance : Bool
deriving Repr, DecidableEq

/-- A logical state map: named string toggles. -/
abbrev StateMap := List (String × String)

/-- The store of profile versions, in creation order (append-only). -/
abbrev Store := List Profile

/-- Modelled from the spec: the static default state map
(`config.DefaultConfig.ServiceConfig`), the built-in default state that
enables the service toggles. -/
def defaultState : StateMap :=
  [("insights", "enabled"), ("remediations", "enabled"), ("compliance", "enabled")]

/-- Look a key up in a state map. -/
def lookupState (s : StateMap) (k : String) : Option String :=
  (s.find? (fun kv => kv.fst == k)).map (fun kv => kv.snd)

/-- Whether a state-map toggle is set to the value "enabled". -/
def stateEnabled (s : StateMap) (k : String) : Bool :=
  lookupState s k == some "enabled"

/-- Modelled from the spec: `db.NewProfile` constructs a new profile
version for an organization and account from a state map of named
toggles; the version ID and creation timestamp are generated at creation
and appear here as the parameters `fid` and `now`. -/
def NewProfile (fid : String) (now : Nat) (org acct : String) (state : StateMap) : Profile :=
  { profileID := fid
    orgID := org
    account := acct
    createdAt := now
    active := true
    insights := stateEnabled state "insights"
    remediations := stateEnabled state "remediations"
    compliance := stateEnabled state "compliance" }

/-- Modelled from the spec: `db.CountProfiles` returns the number of
profile versions stored for an organization. -/
def countProfiles (st : Store) (org : String) : Nat :=
  (st.filter (fun p => p.orgID == org)).length

/-- Modelled from the spec: `db.InsertProfile` persists a new immutable
profile version; the store is append-only. -/
def insertProfile (st : Store) (p : Profile) : Store :=
  st ++ [p]

/-- Modelled from the spec: `db.GetCurrentProfile` returns the current
profile of an organization — the most recently created version for that
org (the last one in creation order) — or nothing when the org has no
profile versions. -/
def getCurrentProfile (st : Store) (org : String) : Option Profile :=
  (st.filter (fun p => p.orgID == org)).getLast?

/-- Modelled from the spec: `db.GetOrInsertCurrentProfile` is an atomic
insert-if-absent — it returns the current profile for the org when one
exists, and otherwise persists the supplied profile and returns it. -/
def getOrInsertCurrentProfile (st : Store) (org : String) (p : Profile) : Profile × Store :=
  match getCurrentProfile st org with
  | some cur => (cur, st)
  | none => (p, insertProfile st p)

/-- Modelled from the spec: `db.GetProfile` looks a profile up by its
version ID, returning nothing (a "not found" error in the code) when no
stored version has that ID. -/
def getProfileByID (st : Store) (pid : String) : Option Profile :=
  st.find? (fun p => p.profileID == pid)

/-- Modelled from the spec: `db.GetProfiles` lists an organization's
profile versions, sorted (default `created_at:desc`, i.e. newest first)
and paginated by limit and offset. -/
def getProfilesDB (st : Store) (org sortBy : String) (limit offset : Int) : List Profile :=
  let filtered := st.filter (fun p => p.orgID == org)
  let sorted := if sortBy == "created_at:desc" then filtered.reverse else filtered
  let paged := sorted.drop offset.toNat
  if limit ≤ 0 then paged else paged.take limit.toNat

/-- Modelled from the spec: `db.CopyProfile` copies a profile version
copy-on-write style — content fields are preserved while the version ID
and the creation timestamp are fresh. -/
def copyProfile (cur : Profile) (fid : String) (now : Nat) : Profile :=
  { cur with profileID := fid, createdAt := now }

/-- Modelled from the spec: `db.Profile.Equal`, the diff/equality check
used to detect a no-op update — it compares the configuration content
(organization, account and the toggle fields) and ignores the version ID
and the creation timestamp, which are fresh on every copy. -/
def profileEqual (p q : Profile) : Bool :=
  p.orgID == q.orgID && p.account == q.account && p.active == q.active
    && p.insights == q.insights && p.remediations == q.remediations
    && p.compliance == q.compliance

/-- The overridable-field write-back of `createProfile`
(handlers.go lines 175–179): the base profile with `active`, `insights`,
`remediations` and `compliance` replaced by the request's values. -/
def applyOverrides (base rp : Profile) : Profile :=
  { base with
    active := rp.active
    insights := rp.insights
    remediations := rp.remediations
    compliance := rp.compliance }

/-- One field-level transition of a diff. -/
structure Transition where
  field : String
  fromValue : String
  toValue : String
deriving Repr, DecidableEq

/-- Modelled from the spec: the fixed known-field schema of the diff
engine — a stable, declared order of (field name, default value) pairs; a
field absent from a state map is treated as its defined default. -/
def schema : List (String × String) :=
  [("insights", "disabled"), ("remediations", "disabled"), ("compliance", "disabled")]

/-- The value of a schema field in a state map, falling back to the
schema default when the field is absent. -/
def stateValue (s : StateMap) (k d : String) : String :=
  (lookupState s k).getD d

/-- Modelled from the spec: the diff engine — `diff(fromState, toState)`
iterates the fixed schema in its declared order and emits one transition
per field whose value differs between the two state maps. -/
def diff (fromS toS : StateMap) : List Transition :=
  schema.filterMap (fun kd =>
    let fv := stateValue fromS kd.fst kd.snd
    let tv := stateValue toS kd.fst kd.snd
    if fv == tv then none else some { field := kd.fst, fromValue := fv, toValue := tv })

/-- A rendered playbook document. -/
abbrev Playbook := String

/-- Playbook-generation errors: `EmptyDiffError` for a diff with zero
transitions, `SchemaError` for a field name missing from the task table. -/
inductive GenError where
  | emptyDiff
  | schemaError (field : String)
deriving Repr, DecidableEq

/-- Modelled from the spec: the fixed lookup table from field name to
task template kept in sync with the schema. -/
def taskTemplate : String → Option String
  | "insights" => some "insights-task"
  | "remediations" => some "remediations-task"
  | "compliance" => some "compliance-task"
  | _ => none

/-- Render the tasks of a diff, one task per transition via the fixed
lookup table; an unknown field name is a fatal `SchemaError`. -/
def renderTasks : List Transition → Except GenError Playbook
  | [] => Except.ok ""
  | t :: ts =>
    match taskTemplate t.field with
    | none => Except.error (GenError.schemaError t.field)
    | some tpl =>
      match renderTasks ts with
      | Except.error e => Except.error e
      | Except.ok rest => Except.ok (tpl ++ ":" ++ t.toValue ++ ";" ++ rest)

/-- Modelled from the spec: the playbook generator — `generate(diff)`
fails with `EmptyDiffError` when the diff has zero transitions and
otherwise renders one task per transition, in diff order. -/
def generatePlaybook (d : List Transition) : Except GenError Playbook :=
  if d.isEmpty then Except.error GenError.emptyDiff else renderTasks d

/-- Modelled from the spec: `Profile.StateConfig` — the profile's logical
state map of named toggles, derived from its toggle fields. -/
def stateConfig (p : Profile) : StateMap :=
  [("insights", if p.insights then "enabled" else "disabled"),
   ("remediations", if p.remediations then "enabled" else "disabled"),
   ("compliance", if p.compliance then "enabled" else "disabled")]

/-- Modelled from the spec: `internal.GeneratePlaybook` applied to a
profile state map, as called by the `getPlaybook` handler — every state
entry is treated as a transition into its value and rendered through the
generator. -/
def generatePlaybookFromState (s : StateMap) : Except GenError Playbook :=
  generatePlaybook (s.map (fun kv => { field := kv.fst, fromValue := "", toValue := kv.snd }))

/-- The payload of a successful profile-list response
(handlers.go lines 83–95). -/
structure ProfilesPayload where
  count : Nat
  limit : Int
  offset : Int
  total : Nat
  results : List Profile
deriving Repr, DecidableEq

/-- An HTTP response as produced by the handlers: a plain-text message
(`render.RenderPlain`), a JSON document (`render.RenderJSON`) or a raw
document (`render.RenderRaw`), each with its status code. -/
inductive Response where
  | plain (status : Nat) (msg : String)
  | jsonProfiles (status : Nat) (payload : ProfilesPayload)
  | jsonProfile (status : Nat) (p : Profile)
  | raw (status : Nat) (contentType : String) (body : Playbook)
deriving Repr, DecidableEq

/-- The status code of a response. -/
def Response.status : Response → Nat
  | .plain s _ => s
  | .jsonProfiles s _ => s
  | .jsonProfile s _ => s
  | .raw s _ _ => s

/-- Whether a status code is a client error (4xx). -/
def is4xx (s : Nat) : Bool :=
  400 ≤ s && s < 500

/-- A limit/offset query parameter: absent, or present with its
`strconv.ParseInt` outcome (`some none` = present but unparsable). -/
abbrev IntParam := Option (Option Int)

/-- Whether a query parameter is present but fails to parse. -/
def paramBad : IntParam → Bool
  | some none => true
  | _ => false

/-- The parsed value of a query parameter: its integer value when present
and parsable, otherwise the Go zero value 0. -/
def paramValue : IntParam → Int
  | some (some v) => v
  | _ => 0

/-- A request to the profile-list endpoint: the identity's org and
account, and the optional sort_by/limit/offset query parameters. -/
structure ProfilesRequest where
  orgID : String
  account : String
  sortBy : Option String
  limitParam : IntParam
  offsetParam : IntParam

/-- The `getProfiles` handler (handlers.go lines 22–98): parse limit and
offset (400 on a parse failure), count the org's profiles, and when the
count is zero synthesize and persist a default profile (raising the total
to 1); then list the profiles and answer 200 with count, limit, offset,
total and results.  The fresh version ID and timestamp used for a
synthesized default profile appear as the parameters `fid` and `now`. -/
def getProfilesH (req : ProfilesRequest) (st : Store) (fid : String) (now : Nat) :
    Response × Store :=
  if paramBad req.limitParam then (.plain 400 "cannot parse limit", st)
  else if paramBad req.offsetParam then (.plain 400 "cannot parse offset", st)
  else
    let limit := paramValue req.limitParam
    let offset := paramValue req.offsetParam
    let total := countProfiles st req.orgID
    let st' :=
      if total = 0 then
        insertProfile st (NewProfile fid now req.orgID req.account defaultState)
      else st
    let total' := if total = 0 then total + 1 else total
    let profiles := getProfilesDB st' req.orgID (req.sortBy.getD "created_at:desc") limit offset
    (.jsonProfiles 200
      { count := profiles.length
        limit := limit
        offset := offset
        total := total'
        results := profiles }, st')

/-- A request to the single-profile endpoint: the identity's org and
account and the "id" path parameter ("" when missing). -/
structure ProfileRequest where
  orgID : String
  account : String
  idParam : String

/-- The `getProfile` handler (handlers.go lines 103–143): 400 when the ID
path parameter is missing; for the literal token "current", an atomic
get-or-insert of the default profile answered with 200; otherwise a
lookup by ID, answering 500 on a lookup error (including "not found"). -/
def getProfileH (req : ProfileRequest) (st : Store) (fid : String) (now : Nat) :
    Response × Store :=
  if req.idParam = "" then (.plain 400 "cannot get ID from URL", st)
  else if req.idParam = "current" then
    let pst := getOrInsertCurrentProfile st req.orgID
      (NewProfile fid now req.orgID req.account defaultState)
    (.jsonProfile 200 pst.fst, pst.snd)
  else
    match getProfileByID st req.idParam with
    | none => (.plain 500 "cannot get profile with ID", st)
    | some p => (.jsonProfile 200 p, st)

/-- A request to the profile-update endpoint: the identity's org and
account, whether the body could be read at all (`io.ReadAll`), and the
parse outcome of the body (`none` = `json.Unmarshal` failure). -/
structure CreateRequest where
  orgID : String
  account : String
  readOK : Bool
  body : Option Profile

/-- The `createProfile` handler (handlers.go lines 146–193): 400 when the
body cannot be read, 500 when it cannot be unmarshalled, 500 when no
current profile exists for the org; otherwise copy the current profile,
override the four caller-overridable fields from the body, answer 304
with the current profile when the result equals it, and otherwise persist
the new version and answer 201 with it. -/
def createProfileH (req : CreateRequest) (st : Store) (fid : String) (now : Nat) :
    Response × Store :=
  if !req.readOK then (.plain 400 "cannot read request body", st)
  else
    match req.body with
    | none => (.plain 500 "cannot unmarshal data", st)
    | some rp =>
      match getCurrentProfile st req.orgID with
      | none => (.plain 500 "cannot get current profile", st)
      | some cur =>
        let np := applyOverrides (copyProfile cur fid now) rp
        if profileEqual np cur then (.jsonProfile 304 cur, st)
        else (.jsonProfile 201 np, insertProfile st np)

/-- A request to the playbook endpoint: the identity's org and account
and the optional profile_id query parameter. -/
structure PlaybookRequest where
  orgID : String
  account : String
  profileIDParam : Option String

/-- The `getPlaybook` handler (handlers.go lines 197–227): 400 when the
profile_id query parameter is missing, 500 on a profile-lookup error
(including "not found"), 500 on a playbook-generation error, otherwise
200 with the rendered playbook. -/
def getPlaybookH (req : PlaybookRequest) (st : Store) : Response × Store :=
  match req.profileIDParam with
  | none => (.plain 400 "cannot get profile_id query parameter", st)
  | some pid =>
    match getProfileByID st pid with
    | none => (.plain 500 "cannot get profile with ID", st)
    | some p =>
      match generatePlaybookFromState (stateConfig p) with
      | Except.error _ => (.plain 500 "cannot generate playbook", st)
      | Except.ok pb => (.raw 200 "application/x-yaml" pb, st)

/-- Build a `Profile` from its fields, positionally. -/
def mkProfile (pid org acct : String) (ts : Nat) (act ins rem cmp : Bool) : Profile :=
  { profileID := pid
    orgID := org
    account := acct
    createdAt := ts
    active := act
    insights := ins
    remediations := rem
    compliance := cmp }

/-- Build a `ProfilesRequest` from its fields, positionally. -/
def mkProfilesRequest (org acct : String) (sortBy : Option String) (lim off : IntParam) :
    ProfilesRequest :=
  { orgID := org, account := acct, sortBy := sortBy, limitParam := lim, offsetParam := off }

/-- Build a `ProfileRequest` from its fields, positionally. -/
def mkProfileRequest (org acct pid : String) : ProfileRequest :=
  { orgID := org, account := acct, idParam := pid }

/-- Build a `CreateRequest` from its fields, positionally. -/
def mkCreateRequest (org acct : String) (rok : Bool) (body : Option Profile) : CreateRequest :=
  { orgID := org, account := acct, readOK := rok, body := body }

/-- Build a `PlaybookRequest` from its fields, positionally. -/
def mkPlaybookRequest (org acct : String) (pid : Option String) : PlaybookRequest :=
  { orgID := org, account := acct, profileIDParam := pid }

/-- The identity and freshly generated metadata of one first-access
request (org, account, and the fresh version ID and timestamp its default
profile would get). -/
structure GpReq where
  org : String
  account : String
  fid : String
  now : Nat

/-- The local state of one in-flight `getProfiles` first-access request:
its program counter and the profile count it observed. -/
structure GpLocal where
  pc : Nat
  observed : Nat
deriving Repr, DecidableEq

/-- The initial local state of a `getProfiles` request. -/
def gpInit : GpLocal := { pc := 0, observed := 0 }

/-- One atomic step of the first-access portion of the `getProfiles`
handler against the shared store: step 0 is the `db.CountProfiles` read
(handlers.go line 51), step 1 is the conditional `db.InsertProfile` of a
default profile when the observed count was zero (lines 58–72).  The two
steps are separate store operations in the Go code, so another request
may be scheduled between them. -/
def gpStep (req : GpReq) (st : Store) (l : GpLocal) : Store × GpLocal :=
  match l.pc with
  | 0 => (st, { pc := 1, observed := countProfiles st req.org })
  | 1 =>
    (if l.observed = 0 then
      insertProfile st (NewProfile req.fid req.now req.org req.account defaultState)
    else st, { pc := 2, observed := l.observed })
  | _ => (st, l)

/-- Run an interleaving of two concurrent `getProfiles` requests: the
schedule picks, at each point, which request executes its next atomic
step (`true` = request A, `false` = request B). -/
def runRace (ra rb : GpReq) : List Bool → Store × GpLocal × GpLocal → Store × GpLocal × GpLocal
  | [], s => s
  | true :: rest, (st, la, lb) =>
    let r := gpStep ra st la
    runRace ra rb rest (r.fst, r.snd, lb)
  | false :: rest, (st, la, lb) =>
    let r := gpStep rb st lb
    runRace ra rb rest (r.fst, la, r.snd)

/-- The total field of a profile-list response, when there is one. -/
def Response.total? : Response → Option Nat
  | .jsonProfiles _ pl => some pl.total
  | _ => none

end ConfigManager

namespace ConfigManager

theorem filter_org_eq_nil (st : Store) (org : String) (h0 : countProfiles st org = 0) :
    st.filter (fun p => p.orgID == org) = [] := by
  simpa [countProfiles] using h0

theorem getCurrentProfile_none (st : Store) (org : String) (h0 : countProfiles st org = 0) :
    getCurrentProfile st org = none := by
  simp [getCurrentProfile, filter_org_eq_nil st org h0]

theorem countProfiles_append_own (st : Store) (p : Profile) (org : String) (h : p.orgID = org) :
    countProfiles (st ++ [p]) org = countProfiles st org + 1 := by
  simp [countProfiles, List.filter_append, h]

/-- Claim C7: for every state map S, `diff(S, S)` yields an empty
sequence of transitions. -/
theorem diff_self_empty (S : StateMap) : diff S S = [] := by
  unfold diff
  rw [List.filterMap_eq_nil_iff]
  intro kd hkd
  simp

/-- Claim C5: a diff with zero transitions makes playbook generation fail
with `EmptyDiffError` and produce no playbook, and a playbook is produced
only from a non-empty diff. -/
theorem generate_empty_diff (d : List Transition) :
    (d = [] → generatePlaybook d = Except.error GenError.emptyDiff) ∧
    (∀ pb : Playbook, generatePlaybook d = Except.ok pb → d ≠ []) := by
  constructor
  · intro hd
    subst hd
    rfl
  · intro pb hpb hd
    subst hd
    simp [generatePlaybook] at hpb

/-- Witness for C5 at concrete diffs: the empty diff fails with
`EmptyDiffError`, and a concrete one-transition diff produces a playbook
and is non-empty. -/
theorem generate_empty_diff_witness :
    generatePlaybook [] = Except.error GenError.emptyDiff ∧
    ([{ field := "insights", fromValue := "disabled", toValue := "enabled" }]
        : List Transition) ≠ [] :=
  ⟨(generate_empty_diff []).1 rfl,
   (generate_empty_diff [{ field := "insights", fromValue := "disabled", toValue := "enabled" }]).2
     "insights-task:enabled;" rfl⟩

/-- Claim C1: for every request on behalf of an org with zero stored
profiles, both profile read operations — listing profiles
(`getProfiles`) and fetching the profile named "current" (`getProfile`) —
synthesize and persist exactly one default profile built from the static
default state map, and the reported total number of profile versions for
that org is then 1. -/
theorem first_access_creates_default
    (st : Store) (org acct sfid gfid : String) (snow gnow : Nat)
    (sortBy : Option String) (lim off : IntParam)
    (h0 : countProfiles st org = 0)
    (hl : paramBad lim = false) (ho : paramBad off = false) :
    ((getProfilesH (mkProfilesRequest org acct sortBy lim off) st sfid snow).snd
      = st ++ [NewProfile sfid snow org acct defaultState]
    ∧ countProfiles (getProfilesH (mkProfilesRequest org acct sortBy lim off) st sfid snow).snd
        org = 1
    ∧ (getProfilesH (mkProfilesRequest org acct sortBy lim off) st sfid snow).fst.total?
        = some 1)
    ∧ (getProfileH (mkProfileRequest org acct "current") st gfid gnow
      = (Response.jsonProfile 200 (NewProfile gfid gnow org acct defaultState),
         st ++ [NewProfile gfid gnow org acct defaultState])
    ∧ countProfiles (getProfileH (mkProfileRequest org acct "current") st gfid gnow).snd
        org = 1) := by
  have hcount : countProfiles (st ++ [NewProfile sfid snow org acct defaultState]) org = 1 := by
    rw [countProfiles_append_own st _ org rfl, h0]
  have hcount2 : countProfiles (st ++ [NewProfile gfid gnow org acct defaultState]) org = 1 := by
    rw [countProfiles_append_own st _ org rfl, h0]
  have hgp : (getProfilesH (mkProfilesRequest org acct sortBy lim off) st sfid snow).snd
      = st ++ [NewProfile sfid snow org acct defaultState] := by
    simp [getProfilesH, mkProfilesRequest, hl, ho, h0, insertProfile]
  refine ⟨⟨hgp, hgp ▸ hcount, ?_⟩, ?_, ?_⟩
  · simp [getProfilesH, mkProfilesRequest, hl, ho, h0, Response.total?]
  · simp [getProfileH, mkProfileRequest, getOrInsertCurrentProfile,
      getCurrentProfile_none st org h0, insertProfile]
  · simp [getProfileH, mkProfileRequest, getOrInsertCurrentProfile,
      getCurrentProfile_none st org h0, insertProfile, hcount2]

/-- Witness for C1: on an empty store, both read operations persist the
one default profile and report a total of 1. -/
theorem first_access_creates_default_witness :
    ((getProfilesH (mkProfilesRequest "o1" "a1" none none none) [] "f1" 1).snd
      = [NewProfile "f1" 1 "o1" "a1" defaultState]
    ∧ countProfiles (getProfilesH (mkProfilesRequest "o1" "a1" none none none) [] "f1" 1).snd
        "o1" = 1
    ∧ (getProfilesH (mkProfilesRequest "o1" "a1" none none none) [] "f1" 1).fst.total?
        = some 1)
    ∧ (getProfileH (mkProfileRequest "o1" "a1" "current") [] "f2" 2
      = (Response.jsonProfile 200 (NewProfile "f2" 2 "o1" "a1" defaultState),
         [NewProfile "f2" 2 "o1" "a1" defaultState])
    ∧ countProfiles (getProfileH (mkProfileRequest "o1" "a1" "current") [] "f2" 2).snd
        "o1" = 1) :=
  first_access_creates_default [] "o1" "a1" "f1" "f2" 1 2 none none none rfl rfl rfl

/-- Claim C2: a profile-update request whose resulting profile (the
current profile with the selected fields overridden) is equal to the
current profile answers 304 Not Modified with the existing current
profile and does not insert a new version into the store. -/
theorem identical_update_not_modified
    (st : Store) (org acct fid : String) (now : Nat) (rp cur : Profile)
    (hcur : getCurrentProfile st org = some cur)
    (heq : profileEqual (applyOverrides (copyProfile cur fid now) rp) cur = true) :
    createProfileH (mkCreateRequest org acct true (some rp)) st fid now
      = (Response.jsonProfile 304 cur, st) := by
  simp [createProfileH, mkCreateRequest, hcur, heq]

/-- Witness for C2: resubmitting the current profile's own toggle values
answers 304 and leaves the store unchanged. -/
theorem identical_update_not_modified_witness :
    createProfileH
        (mkCreateRequest "o1" "a1" true (some (mkProfile "zz" "other" "ax" 99 true true true true)))
        [mkProfile "p1" "o1" "a1" 0 true true true true] "f2" 7
      = (Response.jsonProfile 304 (mkProfile "p1" "o1" "a1" 0 true true true true),
         [mkProfile "p1" "o1" "a1" 0 true true true true]) :=
  identical_update_not_modified _ "o1" "a1" "f2" 7 _ _ rfl rfl

/-- Claim C3: a successful profile-update stores exactly the copy of the
prior current version in which the caller-overridable fields (active,
insights, remediations, compliance) take the request's values, the
organization and account are unchanged from the prior current version,
and the version ID and creation timestamp are fresh. -/
theorem update_frame
    (st : Store) (org acct fid : String) (now : Nat) (rp cur : Profile)
    (hcur : getCurrentProfile st org = some cur)
    (hne : profileEqual (applyOverrides (copyProfile cur fid now) rp) cur = false) :
    createProfileH (mkCreateRequest org acct true (some rp)) st fid now
      = (Response.jsonProfile 201 (applyOverrides (copyProfile cur fid now) rp),
         st ++ [applyOverrides (copyProfile cur fid now) rp])
    ∧ (applyOverrides (copyProfile cur fid now) rp).active = rp.active
    ∧ (applyOverrides (copyProfile cur fid now) rp).insights = rp.insights
    ∧ (applyOverrides (copyProfile cur fid now) rp).remediations = rp.remediations
    ∧ (applyOverrides (copyProfile cur fid now) rp).compliance = rp.compliance
    ∧ (applyOverrides (copyProfile cur fid now) rp).orgID = cur.orgID
    ∧ (applyOverrides (copyProfile cur fid now) rp).account = cur.account
    ∧ (applyOverrides (copyProfile cur fid now) rp).profileID = fid
    ∧ (applyOverrides (copyProfile cur fid now) rp).createdAt = now := by
  constructor
  · simp [createProfileH, mkCreateRequest, hcur, hne, insertProfile]
  · refine ⟨?_, ?_, ?_, ?_, ?_, ?_, ?_, ?_⟩ <;> simp [applyOverrides, copyProfile]

/-- Witness for C3: a concrete update flipping one toggle stores the
copied version with only the overridable fields changed and fresh
identity metadata. -/
theorem update_frame_witness :
    createProfileH
        (mkCreateRequest "o1" "a1" true (some (mkProfile "zz" "other" "ax" 99 true true false true)))
        [mkProfile "p1" "o1" "a1" 0 true true true true] "f2" 7
      = (Response.jsonProfile 201 (mkProfile "f2" "o1" "a1" 7 true true false true),
         [mkProfile "p1" "o1" "a1" 0 true true true true,
          mkProfile "f2" "o1" "a1" 7 true true false true]) := by
  have h := (update_frame [mkProfile "p1" "o1" "a1" 0 true true true true] "o1" "a1" "f2" 7
    (mkProfile "zz" "other" "ax" 99 true true false true)
    (mkProfile "p1" "o1" "a1" 0 true true true true) rfl rfl).1
  simpa [applyOverrides, copyProfile, mkProfile, insertProfile] using h


/-- Counterexample for C4: a profile-update request whose body cannot be
unmarshalled, and a single-profile request naming a profile that does not
exist, are both answered with status 500 — a server-error status, not a
4xx client-error status as the claim states. -/
theorem error_status_counterexample :
    (createProfileH (mkCreateRequest "o1" "a1" true none) [] "f1" 1).fst.status = 500
    ∧ (getProfileH (mkProfileRequest "o1" "a1" "p9") [] "f1" 1).fst.status = 500
    ∧ (getPlaybookH (mkPlaybookRequest "o1" "a1" (some "p9")) []).fst.status = 500
    ∧ is4xx 500 = false := by
  refine ⟨rfl, rfl, rfl, rfl⟩

/-- Amended C4: requests failing on an unparsable limit/offset query
parameter, a missing profile ID, an unreadable request body, or a missing
profile_id query parameter are answered 400 (a 4xx status); but a request
body that cannot be unmarshalled and a named profile that does not exist
are answered 500, a server-error status. -/
theorem error_status_amended :
    (∀ (req : ProfilesRequest) (st : Store) (fid : String) (now : Nat),
      paramBad req.limitParam = true ∨ paramBad req.offsetParam = true →
      (getProfilesH req st fid now).fst.status = 400)
    ∧ (∀ (org acct : String) (st : Store) (fid : String) (now : Nat),
      (getProfileH (mkProfileRequest org acct "") st fid now).fst.status = 400)
    ∧ (∀ (org acct : String) (b : Option Profile) (st : Store) (fid : String) (now : Nat),
      (createProfileH (mkCreateRequest org acct false b) st fid now).fst.status = 400)
    ∧ (∀ (org acct : String) (st : Store),
      (getPlaybookH (mkPlaybookRequest org acct none) st).fst.status = 400)
    ∧ (∀ (org acct : String) (st : Store) (fid : String) (now : Nat),
      (createProfileH (mkCreateRequest org acct true none) st fid now).fst.status = 500)
    ∧ (∀ (org acct pid : String) (st : Store) (fid : String) (now : Nat),
      pid ≠ "" → pid ≠ "current" → getProfileByID st pid = none →
      (getProfileH (mkProfileRequest org acct pid) st fid now).fst.status = 500)
    ∧ (∀ (org acct pid : String) (st : Store),
      getProfileByID st pid = none →
      (getPlaybookH (mkPlaybookRequest org acct (some pid)) st).fst.status = 500) := by
  refine ⟨?_, ?_, ?_, ?_, ?_, ?_, ?_⟩
  · intro req st fid now h
    unfold getProfilesH
    by_cases hl : paramBad req.limitParam = true
    · simp [hl, Response.status]
    · rcases h with h | h
      · exact absurd h hl
      · simp [hl, h, Response.status]
  · intro org acct st fid now
    simp [getProfileH, mkProfileRequest, Response.status]
  · intro org acct b st fid now
    simp [createProfileH, mkCreateRequest, Response.status]
  · intro org acct st
    simp [getPlaybookH, mkPlaybookRequest, Response.status]
  · intro org acct st fid now
    simp [createProfileH, mkCreateRequest, Response.status]
  · intro org acct pid st fid now h1 h2 h3
    simp [getProfileH, mkProfileRequest, h1, h2, h3, Response.status]
  · intro org acct pid st h
    simp [getPlaybookH, mkPlaybookRequest, h, Response.status]

/-- Witness for the amended C4, one concrete request per case. -/
theorem error_status_amended_witness :
    (getProfilesH (mkProfilesRequest "o1" "a1" none (some none) none) [] "f1" 1).fst.status = 400
    ∧ (getProfileH (mkProfileRequest "o1" "a1" "") [] "f1" 1).fst.status = 400
    ∧ (createProfileH (mkCreateRequest "o1" "a1" false none) [] "f1" 1).fst.status = 400
    ∧ (getPlaybookH (mkPlaybookRequest "o1" "a1" none) []).fst.status = 400
    ∧ (createProfileH (mkCreateRequest "o1" "a1" true none) [] "f1" 1).fst.status = 500
    ∧ (getProfileH (mkProfileRequest "o1" "a1" "p9") [] "f1" 1).fst.status = 500
    ∧ (getPlaybookH (mkPlaybookRequest "o1" "a1" (some "p9")) []).fst.status = 500 :=
  ⟨error_status_amended.1 (mkProfilesRequest "o1" "a1" none (some none) none) [] "f1" 1
     (Or.inl rfl),
   error_status_amended.2.1 "o1" "a1" [] "f1" 1,
   error_status_amended.2.2.1 "o1" "a1" none [] "f1" 1,
   error_status_amended.2.2.2.1 "o1" "a1" [],
   error_status_amended.2.2.2.2.1 "o1" "a1" [] "f1" 1,
   error_status_amended.2.2.2.2.2.1 "o1" "a1" "p9" [] "f1" 1 (by decide) (by decide) rfl,
   error_status_amended.2.2.2.2.2.2 "o1" "a1" "p9" [] rfl⟩

/-- Counterexample for C6: the first-access create of the profile-listing
handler is a check-then-create (a count read followed by a separate
insert), so the interleaving count-A, count-B, insert-A, insert-B of two
concurrent requests for an org with zero profiles creates two default
profiles, not at most one. -/
theorem race_two_defaults :
    countProfiles ([] : Store) "o1" = 0
    ∧ countProfiles
        (runRace { org := "o1", account := "a1", fid := "ida", now := 1 }
          { org := "o1", account := "a1", fid := "idb", now := 2 }
          [true, false, true, false] ([], gpInit, gpInit)).fst "o1" = 2 := by
  refine ⟨rfl, rfl⟩

/-- Amended C6: the "current"-profile fetch path creates its default
profile through an atomic insert-if-absent (`GetOrInsertCurrentProfile`),
so two such requests for an org with zero profiles create exactly one
default profile and both observe it; the profile-listing path, by
contrast, is a check-then-create and can create two default profiles
under an interleaving. -/
theorem current_get_or_insert_single
    (st : Store) (org acct1 acct2 fid1 fid2 : String) (now1 now2 : Nat)
    (h0 : countProfiles st org = 0) :
    (getProfileH (mkProfileRequest org acct2 "current")
        (getProfileH (mkProfileRequest org acct1 "current") st fid1 now1).snd fid2 now2).snd
      = st ++ [NewProfile fid1 now1 org acct1 defaultState]
    ∧ countProfiles
        (getProfileH (mkProfileRequest org acct2 "current")
          (getProfileH (mkProfileRequest org acct1 "current") st fid1 now1).snd fid2 now2).snd
        org = 1
    ∧ (getProfileH (mkProfileRequest org acct2 "current")
        (getProfileH (mkProfileRequest org acct1 "current") st fid1 now1).snd fid2 now2).fst
      = Response.jsonProfile 200 (NewProfile fid1 now1 org acct1 defaultState) := by
  have h1 : (getProfileH (mkProfileRequest org acct1 "current") st fid1 now1).snd
      = st ++ [NewProfile fid1 now1 org acct1 defaultState] := by
    simp [getProfileH, mkProfileRequest, getOrInsertCurrentProfile,
      getCurrentProfile_none st org h0, insertProfile]
  have hcur : getCurrentProfile (st ++ [NewProfile fid1 now1 org acct1 defaultState]) org
      = some (NewProfile fid1 now1 org acct1 defaultState) := by
    simp [getCurrentProfile, List.filter_append, filter_org_eq_nil st org h0, NewProfile]
  rw [h1]
  refine ⟨?_, ?_, ?_⟩
  · simp [getProfileH, mkProfileRequest, getOrInsertCurrentProfile, hcur]
  · simp [getProfileH, mkProfileRequest, getOrInsertCurrentProfile, hcur]
    rw [countProfiles_append_own st _ org rfl, h0]
  · simp [getProfileH, mkProfileRequest, getOrInsertCurrentProfile, hcur]

/-- Witness for the amended C6: two successive "current" fetches on an
empty store end with exactly one default profile, both seeing it. -/
theorem current_get_or_insert_single_witness :
    (getProfileH (mkProfileRequest "o1" "a2" "current")
        (getProfileH (mkProfileRequest "o1" "a1" "current") [] "f1" 1).snd "f2" 2).snd
      = [NewProfile "f1" 1 "o1" "a1" defaultState]
    ∧ countProfiles
        (getProfileH (mkProfileRequest "o1" "a2" "current")
          (getProfileH (mkProfileRequest "o1" "a1" "current") [] "f1" 1).snd "f2" 2).snd
        "o1" = 1
    ∧ (getProfileH (mkProfileRequest "o1" "a2" "current")
        (getProfileH (mkProfileRequest "o1" "a1" "current") [] "f1" 1).snd "f2" 2).fst
      = Response.jsonProfile 200 (NewProfile "f1" 1 "o1" "a1" defaultState) :=
  current_get_or_insert_single [] "o1" "a1" "a2" "f1" "f2" 1 2 rfl


/-- Claim C8: profile versions are immutable once created — every handler
leaves the stored versions in place, at most appending new versions to
the store; none modifies or deletes an existing stored version. -/
theorem profiles_append_only (st : Store) :
    (∀ (req : ProfilesRequest) (fid : String) (now : Nat),
      ∃ tail, (getProfilesH req st fid now).snd = st ++ tail)
    ∧ (∀ (req : ProfileRequest) (fid : String) (now : Nat),
      ∃ tail, (getProfileH req st fid now).snd = st ++ tail)
    ∧ (∀ (req : CreateRequest) (fid : String) (now : Nat),
      ∃ tail, (createProfileH req st fid now).snd = st ++ tail)
    ∧ (∀ req : PlaybookRequest, (getPlaybookH req st).snd = st) := by
  refine ⟨?_, ?_, ?_, ?_⟩
  · intro req fid now
    unfold getProfilesH
    by_cases hl : paramBad req.limitParam = true
    · exact ⟨[], by simp [hl]⟩
    · by_cases ho : paramBad req.offsetParam = true
      · exact ⟨[], by simp [hl, ho]⟩
      · by_cases h0 : countProfiles st req.orgID = 0
        · exact ⟨[NewProfile fid now req.orgID req.account defaultState],
            by simp [hl, ho, h0, insertProfile]⟩
        · exact ⟨[], by simp [hl, ho, h0]⟩
  · intro req fid now
    unfold getProfileH
    by_cases he : req.idParam = ""
    · exact ⟨[], by simp [he]⟩
    · by_cases hc : req.idParam = "current"
      · rcases hcur : getCurrentProfile st req.orgID with _ | cur
        · exact ⟨[NewProfile fid now req.orgID req.account defaultState],
            by simp [he, hc, getOrInsertCurrentProfile, hcur, insertProfile]⟩
        · exact ⟨[], by simp [he, hc, getOrInsertCurrentProfile, hcur]⟩
      · rcases hid : getProfileByID st req.idParam with _ | p
        · exact ⟨[], by simp [he, hc, hid]⟩
        · exact ⟨[], by simp [he, hc, hid]⟩
  · intro req fid now
    unfold createProfileH
    by_cases hr : req.readOK = true
    · rcases hb : req.body with _ | rp
      · exact ⟨[], by simp [hr, hb]⟩
      · rcases hcur : getCurrentProfile st req.orgID with _ | cur
        · exact ⟨[], by simp [hr, hb, hcur]⟩
        · by_cases heq : profileEqual (applyOverrides (copyProfile cur fid now) rp) cur = true
          · exact ⟨[], by simp [hr, hb, hcur, heq]⟩
          · exact ⟨[applyOverrides (copyProfile cur fid now) rp],
              by simp [hr, hb, hcur, heq, insertProfile]⟩
    · exact ⟨[], by simp [hr]⟩
  · intro req
    unfold getPlaybookH
    rcases req.profileIDParam with _ | pid
    · simp
    · rcases hid : getProfileByID st pid with _ | p
      · simp [hid]
      · rcases hg : generatePlaybookFromState (stateConfig p) with e | pb <;> simp [hid, hg]

/-- Claim C9: the stored result of a profile update does not depend on
body fields other than the four caller-overridable toggles — two update
requests under the same identity whose bodies agree on active, insights,
remediations and compliance produce the same response and store, and the
new version's organization and account come from the identity-scoped
current profile, never from the request body. -/
theorem body_identity_ignored
    (st : Store) (org acct fid : String) (now : Nat) (rp1 rp2 : Profile)
    (h1 : rp1.active = rp2.active) (h2 : rp1.insights = rp2.insights)
    (h3 : rp1.remediations = rp2.remediations) (h4 : rp1.compliance = rp2.compliance) :
    createProfileH (mkCreateRequest org acct true (some rp1)) st fid now
      = createProfileH (mkCreateRequest org acct true (some rp2)) st fid now
    ∧ (∀ (cur np : Profile) (stOut : Store),
      getCurrentProfile st org = some cur →
      createProfileH (mkCreateRequest org acct true (some rp1)) st fid now
        = (Response.jsonProfile 201 np, stOut) →
      np.orgID = cur.orgID ∧ np.account = cur.account ∧ stOut = st ++ [np]) := by
  have hkey : ∀ base : Profile, applyOverrides base rp1 = applyOverrides base rp2 := by
    intro base
    simp [applyOverrides, h1, h2, h3, h4]
  constructor
  · unfold createProfileH
    rcases hcur : getCurrentProfile st org with _ | cur
    · simp [mkCreateRequest, hcur]
    · simp [mkCreateRequest, hcur, hkey (copyProfile cur fid now)]
  · intro cur np stOut hcur heq
    unfold createProfileH at heq
    simp [mkCreateRequest, hcur] at heq
    by_cases hpe : profileEqual (applyOverrides (copyProfile cur fid now) rp1) cur = true
    · rw [if_pos hpe] at heq
      exact absurd (congrArg (fun r => r.fst.status) heq) (by simp [Response.status])
    · rw [if_neg hpe] at heq
      have hnp : np = applyOverrides (copyProfile cur fid now) rp1 := by
        have := congrArg Prod.fst heq
        simp at this
        exact this.symm
      have hst : stOut = st ++ [applyOverrides (copyProfile cur fid now) rp1] := by
        have := congrArg Prod.snd heq
        simpa [insertProfile] using this.symm
      subst hnp
      refine ⟨by simp [applyOverrides, copyProfile], by simp [applyOverrides, copyProfile], ?_⟩
      exact hst

/-- Witness for C9: two bodies differing only in body-supplied identity
fields (version ID, org, account, timestamp) yield identical handler
results. -/
theorem body_identity_ignored_witness :
    createProfileH
        (mkCreateRequest "o1" "a1" true (some (mkProfile "zz" "evil" "ax" 99 false true true true)))
        [mkProfile "p1" "o1" "a1" 0 true true true true] "f2" 7
      = createProfileH
        (mkCreateRequest "o1" "a1" true (some (mkProfile "qq" "other" "ay" 42 false true true true)))
        [mkProfile "p1" "o1" "a1" 0 true true true true] "f2" 7 :=
  (body_identity_ignored [mkProfile "p1" "o1" "a1" 0 true true true true] "o1" "a1" "f2" 7
    (mkProfile "zz" "evil" "ax" 99 false true true true)
    (mkProfile "qq" "other" "ay" 42 false true true true) rfl rfl rfl rfl).1

/-- Claim C10: a successful (HTTP 200) profile-list response has its
count field equal to the length of the results array and its limit and
offset fields equal to the parsed query parameters, 0 when a parameter is
absent. -/
theorem list_response_consistent
    (req : ProfilesRequest) (st : Store) (fid : String) (now : Nat)
    (c : Nat) (l o : Int) (t : Nat) (res : List Profile)
    (h : (getProfilesH req st fid now).fst
      = Response.jsonProfiles 200
        { count := c, limit := l, offset := o, total := t, results := res }) :
    c = res.length ∧ l = paramValue req.limitParam ∧ o = paramValue req.offsetParam
    ∧ (req.limitParam = none → l = 0) ∧ (req.offsetParam = none → o = 0) := by
  unfold getProfilesH at h
  by_cases hl : paramBad req.limitParam = true
  · simp [hl] at h
  · by_cases ho : paramBad req.offsetParam = true
    · simp [hl, ho] at h
    · simp [hl, ho] at h
      obtain ⟨hc, hlim, hoff, ht, hres⟩ := h
      subst hres
      refine ⟨hc.symm, hlim.symm, hoff.symm, ?_, ?_⟩
      · intro habs
        rw [hlim.symm, habs]
        rfl
      · intro habs
        rw [hoff.symm, habs]
        rfl

/-- Witness for C10 at a concrete request with explicit limit and offset
parameters against the empty store. -/
theorem list_response_consistent_witness :
    (0 : Nat) = ([] : List Profile).length
    ∧ (5 : Int) = paramValue (some (some 5)) ∧ (2 : Int) = paramValue (some (some 2))
    ∧ ((some (some 5) : IntParam) = none → (5 : Int) = 0)
    ∧ ((some (some 2) : IntParam) = none → (2 : Int) = 0) :=
  list_response_consistent (mkProfilesRequest "o1" "a1" none (some (some 5)) (some (some 2)))
    [] "f1" 1 0 5 2 1 [] rfl

end ConfigManager
